import Mathlib

/-!
Shallow embedding of log4cplus `src/syslogappender.cxx` (the syslog
appender): severity and facility mapping, RFC5424-style remote message
construction, RFC6587 octet-counting stream framing, and the
connected/disconnected state handling of the remote append path.

External collaborators (layout formatting, timestamp formatting, process
id, socket I/O results, background connector) are modelled as explicit
inputs (oracles), matching the boundary the spec draws in its section 6.
Strings are modelled at the character level; all protocol text involved
is ASCII, where characters and bytes coincide.
-/

set_option maxRecDepth 16000

set_option maxHeartbeats 1000000

namespace Log4cplusSyslog

/- Priority (severity) codes, from the source lines 40-47. -/

def LOG_EMERG : Nat := 0

def LOG_ALERT : Nat := 1

def LOG_CRIT : Nat := 2

def LOG_ERR : Nat := 3

def LOG_WARNING : Nat := 4

def LOG_NOTICE : Nat := 5

def LOG_INFO : Nat := 6

def LOG_DEBUG : Nat := 7

/- Facility codes, from the source lines 50-73. -/

def LOG_KERN : Nat := 0 <<< 3

def LOG_USER : Nat := 1 <<< 3

def LOG_MAIL : Nat := 2 <<< 3

def LOG_DAEMON : Nat := 3 <<< 3

def LOG_AUTH : Nat := 4 <<< 3

def LOG_SYSLOG : Nat := 5 <<< 3

def LOG_LPR : Nat := 6 <<< 3

def LOG_NEWS : Nat := 7 <<< 3

def LOG_UUCP : Nat := 8 <<< 3

def LOG_CRON : Nat := 9 <<< 3

def LOG_AUTHPRIV : Nat := 10 <<< 3

def LOG_FTP : Nat := 11 <<< 3

def LOG_NTP : Nat := 12 <<< 3

def LOG_SECURITY : Nat := 13 <<< 3

def LOG_CONSOLE : Nat := 14 <<< 3

def LOG_LOCAL0 : Nat := 16 <<< 3

def LOG_LOCAL1 : Nat := 17 <<< 3

def LOG_LOCAL2 : Nat := 18 <<< 3

def LOG_LOCAL3 : Nat := 19 <<< 3

def LOG_LOCAL4 : Nat := 20 <<< 3

def LOG_LOCAL5 : Nat := 21 <<< 3

def LOG_LOCAL6 : Nat := 22 <<< 3

def LOG_LOCAL7 : Nat := 23 <<< 3

/-- Modelled from the spec: the framework log level constants
(`loglevel.h` is not part of the given source).  The spec only requires
an ordered numeric scale with INFO < WARN < ERROR < FATAL; the values
used are the standard log4cplus values. -/
def INFO_LOG_LEVEL : Int := 20000

/-- Modelled from the spec: see `INFO_LOG_LEVEL`. -/
def WARN_LOG_LEVEL : Int := 30000

/-- Modelled from the spec: see `INFO_LOG_LEVEL`. -/
def ERROR_LOG_LEVEL : Int := 40000

/-- Modelled from the spec: see `INFO_LOG_LEVEL`. -/
def FATAL_LOG_LEVEL : Int := 50000

/-- Severity of a diagnostic emitted through the LogLog diagnostic sink
(spec section 6: error / warn / debug). -/
inductive DiagSeverity where
  | error
  | warn
  | debug
  deriving DecidableEq, Repr

/-- One diagnostic line sent to the LogLog sink. -/
structure Diagnostic where
  sev : DiagSeverity
  msg : String
  deriving DecidableEq, Repr

/-- Embeds `fallback_facility` (source lines 95-101): `LOG_USER`, since
the portable facility table defines it. -/
def fallback_facility : Nat := LOG_USER

/-- Embeds `parseFacility` (source lines 104-211).  Returns the resolved
facility code together with the diagnostics the call emits (the source
reports an unknown facility through `getLogLog().error`). -/
def parseFacility (text : String) : Nat × List Diagnostic :=
  if text = "" then (fallback_facility, [])
  else if text = "auth" then (LOG_AUTH, [])
  else if text = "authpriv" then (LOG_AUTHPRIV, [])
  else if text = "console" then (LOG_CONSOLE, [])
  else if text = "cron" then (LOG_CRON, [])
  else if text = "daemon" then (LOG_DAEMON, [])
  else if text = "ftp" then (LOG_FTP, [])
  else if text = "kern" then (LOG_KERN, [])
  else if text = "local0" then (LOG_LOCAL0, [])
  else if text = "local1" then (LOG_LOCAL1, [])
  else if text = "local2" then (LOG_LOCAL2, [])
  else if text = "local3" then (LOG_LOCAL3, [])
  else if text = "local4" then (LOG_LOCAL4, [])
  else if text = "local5" then (LOG_LOCAL5, [])
  else if text = "local6" then (LOG_LOCAL6, [])
  else if text = "local7" then (LOG_LOCAL7, [])
  else if text = "lpr" then (LOG_LPR, [])
  else if text = "mail" then (LOG_MAIL, [])
  else if text = "news" then (LOG_NEWS, [])
  else if text = "ntp" then (LOG_NTP, [])
  else if text = "security" then (LOG_SECURITY, [])
  else if text = "syslog" then (LOG_SYSLOG, [])
  else if text = "user" then (LOG_USER, [])
  else if text = "uucp" then (LOG_UUCP, [])
  else (fallback_facility, [⟨.error, "Unknown syslog facility: " ++ text⟩])

/-- The facility names the embedded platform table defines, in the order
`parseFacility` tests them. -/
def supportedFacilityNames : List String :=
  ["auth", "authpriv", "console", "cron", "daemon", "ftp", "kern",
   "local0", "local1", "local2", "local3", "local4", "local5", "local6",
   "local7", "lpr", "mail", "news", "ntp", "security", "syslog", "user",
   "uucp"]

/-- Embeds `substrOrNil` (source lines 214-222): an empty field renders
as a single dash, otherwise the field is cut to at most `limit`
characters. -/
def substrOrNil (str : String) (limit : Nat) : String :=
  if str = "" then "-" else str.take limit

/-- Embeds `getSysLogLevel` (source lines 364-384). -/
def getSysLogLevel (ll : Int) : Nat :=
  if ll < INFO_LOG_LEVEL then LOG_DEBUG
  else if ll < WARN_LOG_LEVEL then LOG_INFO
  else if ll < ERROR_LOG_LEVEL then LOG_WARNING
  else if ll < FATAL_LOG_LEVEL then LOG_ERR
  else if ll = FATAL_LOG_LEVEL then LOG_CRIT
  else LOG_ALERT

/-- Transport kind of the remote path (header `RemoteSyslogType`). -/
inductive RemoteSyslogType where
  | RSTUdp
  | RSTTcp
  deriving DecidableEq, Repr

/-- The part of a logging event `appendRemote` reads.  `timestampStr`
carries the output of the external `getFormattedTime` collaborator and
`message` the text the external layout collaborator renders for the
event, per the interface boundary of spec section 6. -/
structure InternalLoggingEvent where
  logLevel : Int
  timestampStr : String
  loggerName : String
  message : String
  deriving DecidableEq, Repr

/-- The appender state the remote path reads and writes. -/
structure AppenderState where
  facility : Nat
  ident : String
  hostname : String
  host : String
  port : Int
  remoteSyslogType : RemoteSyslogType
  connected : Bool
  deriving DecidableEq, Repr

/-- Modelled from the spec: `helpers::convertIntegerToNarrowString` (not
part of the given source) renders the octet count in decimal. -/
def convertIntegerToNarrowString (n : Nat) : String :=
  toString n

/-- Modelled from the spec: `helpers::convertIntegerToString` (not part
of the given source) renders the port number in decimal in diagnostics. -/
def convertIntegerToString (n : Int) : String :=
  toString n

/-- Embeds the message construction of `appendRemote` (source lines
440-468): PRI, VERSION, TIMESTAMP, HOSTNAME, APP-NAME, PROCID, MSGID,
empty STRUCTURED-DATA, MSG. -/
def buildSyslogMessage (st : AppenderState) (ev : InternalLoggingEvent)
    (procId : String) : String :=
  "<" ++ toString (getSysLogLevel ev.logLevel ||| st.facility) ++ ">"
    ++ "1"
    ++ " " ++ ev.timestampStr
    ++ " " ++ substrOrNil st.hostname 255
    ++ " " ++ substrOrNil st.ident 48
    ++ " " ++ procId
    ++ " " ++ substrOrNil ev.loggerName 32
    ++ " - "
    ++ ev.message

/-- Embeds the framing step of `appendRemote` (source lines 470-479):
for a non-UDP transport the message is preceded by its length in decimal
and one space (RFC6587 octet counting); for UDP it is unchanged. -/
def frameMessage (rst : RemoteSyslogType) (chstr : String) : String :=
  if rst ≠ RemoteSyslogType.RSTUdp then
    convertIntegerToNarrowString chstr.length ++ " " ++ chstr
  else chstr

/-- The diagnostic `openSocket` and the single-threaded reconnect path of
`appendRemote` emit when the connect attempt fails (source lines 430-435
and 546-551). -/
def connectFailureDiag (host : String) (port : Int) : Diagnostic :=
  ⟨.error, "SysLogAppender- failed to connect to " ++ host ++ ":"
    ++ convertIntegerToString port⟩

/-- The diagnostic `appendRemote` emits when the socket write fails
(source lines 484-486). -/
def writeFailureDiag : Diagnostic :=
  ⟨.warn, "SysLogAppender::appendRemote- socket write failed"⟩

/-- Observable outcome of one `appendRemote` call: the byte sequences
passed to `syslogSocket.write`, the diagnostics emitted, the number of
`connector->trigger` signals issued, and the updated appender state. -/
structure AppendResult where
  writes : List String
  diags : List Diagnostic
  triggers : Nat
  state : AppenderState
  deriving DecidableEq, Repr

/-- Embeds the connected tail of `appendRemote` (source lines 440-494):
build, frame, write; on write failure warn, clear `connected` and, in a
multi-threaded build (`mt`), trigger the connector.  `writeOk` is the
result of the external socket write. -/
def sendMessage (st : AppenderState) (ev : InternalLoggingEvent)
    (procId : String) (writeOk : Bool) (mt : Bool) : AppendResult :=
  let framed := frameMessage st.remoteSyslogType (buildSyslogMessage st ev procId)
  if writeOk then ⟨[framed], [], 0, st⟩
  else ⟨[framed], [writeFailureDiag], if mt then 1 else 0,
    { st with connected := false }⟩

/-- Embeds `appendRemote` (source lines 416-494) as compiled for a
multi-threaded build: when not connected, trigger the connector and
return without building or writing anything. -/
def appendRemoteMT (st : AppenderState) (ev : InternalLoggingEvent)
    (procId : String) (writeOk : Bool) : AppendResult :=
  if !st.connected then ⟨[], [], 1, st⟩
  else sendMessage st ev procId writeOk true

/-- Embeds `openSocket` (source lines 540-552): `connected` becomes the
open status of the freshly created socket (`openOk`, the external socket
result) and a connect failure is reported through the diagnostic sink. -/
def openSocket (st : AppenderState) (openOk : Bool) :
    AppenderState × List Diagnostic :=
  ({ st with connected := openOk },
   if openOk then [] else [connectFailureDiag st.host st.port])

/-- Embeds `appendRemote` as compiled for a single-threaded build
(`LOG4CPLUS_SINGLE_THREADED`): when not connected, retry `openSocket`
inline; if still not connected, report the failure naming host and port
and return without sending. -/
def appendRemoteST (st : AppenderState) (ev : InternalLoggingEvent)
    (procId : String) (openOk writeOk : Bool) : AppendResult :=
  if !st.connected then
    let reopened := openSocket st openOk
    if !reopened.fst.connected then
      ⟨[], reopened.snd ++ [connectFailureDiag st.host st.port], 0, reopened.fst⟩
    else
      let r := sendMessage reopened.fst ev procId writeOk false
      ⟨r.writes, reopened.snd ++ r.diags, r.triggers, r.state⟩
  else sendMessage st ev procId writeOk false

/-- Embeds `initConnector` (source lines 529-537): in a multi-threaded
build the connector thread is started and `connected` is optimistically
set; in a single-threaded build the function does nothing. -/
def initConnectorConnected (mt : Bool) (connected : Bool) : Bool :=
  if mt then true else connected

/-- The `connected` flag after the remote constructors run
`openSocket(); initConnector()` (source lines 295-296 and 318-319),
given the build kind `mt` and the open status `isOpen` the socket
reports during construction. -/
def remoteConstructedConnected (mt : Bool) (isOpen : Bool) : Bool :=
  initConnectorConnected mt (openSocket
    { facility := 0, ident := "", hostname := "", host := "", port := 0,
      remoteSyslogType := .RSTUdp, connected := false } isOpen).fst.connected

/-- A concrete remote appender state: host 127.0.0.1, a test port,
stream transport (udp=false), the default facility, ident "svc",
connected after asynchronous construction. -/
def sampleState : AppenderState :=
  { facility := (parseFacility "").fst
  , ident := "svc"
  , hostname := "testhost"
  , host := "127.0.0.1"
  , port := 6514
  , remoteSyslogType := .RSTTcp
  , connected := remoteConstructedConnected true true }

/-- A concrete INFO event with message "hello". -/
def sampleEvent : InternalLoggingEvent :=
  { logLevel := 20000
  , timestampStr := "2025-01-01T00:00:00.000000Z"
  , loggerName := "logger"
  , message := "hello" }

/-- The header-plus-body payload built for `sampleEvent` on
`sampleState`, before any stream framing. -/
def samplePayload : String := buildSyslogMessage sampleState sampleEvent "42"

/-- The sample appender state with the connected flag cleared. -/
def sampleStateDown : AppenderState := { sampleState with connected := false }

/-- C1: getSysLogLevel maps each framework level band to the documented
syslog severity, never yields EMERG(0) or NOTICE(5), and is monotonically
non-increasing as the framework level increases. -/
theorem getSysLogLevel_spec (ll : Int) :
    (ll < INFO_LOG_LEVEL → getSysLogLevel ll = 7) ∧
    (INFO_LOG_LEVEL ≤ ll → ll < WARN_LOG_LEVEL → getSysLogLevel ll = 6) ∧
    (WARN_LOG_LEVEL ≤ ll → ll < ERROR_LOG_LEVEL → getSysLogLevel ll = 4) ∧
    (ERROR_LOG_LEVEL ≤ ll → ll < FATAL_LOG_LEVEL → getSysLogLevel ll = 3) ∧
    (ll = FATAL_LOG_LEVEL → getSysLogLevel ll = 2) ∧
    (FATAL_LOG_LEVEL < ll → getSysLogLevel ll = 1) ∧
    getSysLogLevel ll ≠ 0 ∧ getSysLogLevel ll ≠ 5 ∧
    (∀ ll2 : Int, ll ≤ ll2 → getSysLogLevel ll2 ≤ getSysLogLevel ll) := by
  unfold getSysLogLevel INFO_LOG_LEVEL WARN_LOG_LEVEL ERROR_LOG_LEVEL
    FATAL_LOG_LEVEL LOG_DEBUG LOG_INFO LOG_WARNING LOG_ERR LOG_CRIT LOG_ALERT
  refine ⟨?_, ?_, ?_, ?_, ?_, ?_, ?_, ?_, ?_⟩ <;> intros <;> split_ifs <;> omega

/-- C1 witness: a level in the INFO band maps to severity 6. -/
theorem getSysLogLevel_spec_witness : getSysLogLevel 20000 = 6 :=
  (getSysLogLevel_spec 20000).2.1 (by decide) (by decide)

/-- C2: while connected, a stream-transport append passes to the socket
write exactly the decimal length of the message, one space, and the
message; a datagram append passes the message unchanged.  Both build
variants behave alike. -/
theorem appendRemote_framing (st : AppenderState) (ev : InternalLoggingEvent)
    (procId : String) (writeOk openOk : Bool) (h : st.connected = true) :
    (st.remoteSyslogType ≠ .RSTUdp →
      (appendRemoteMT st ev procId writeOk).writes =
        [toString (buildSyslogMessage st ev procId).length ++ " "
          ++ buildSyslogMessage st ev procId] ∧
      (appendRemoteST st ev procId openOk writeOk).writes =
        [toString (buildSyslogMessage st ev procId).length ++ " "
          ++ buildSyslogMessage st ev procId]) ∧
    (st.remoteSyslogType = .RSTUdp →
      (appendRemoteMT st ev procId writeOk).writes =
        [buildSyslogMessage st ev procId] ∧
      (appendRemoteST st ev procId openOk writeOk).writes =
        [buildSyslogMessage st ev procId]) := by
  cases writeOk <;>
    constructor <;>
    intro hr <;>
    simp [appendRemoteMT, appendRemoteST, sendMessage, frameMessage, h, hr,
      convertIntegerToNarrowString]

/-- C2 witness: the concrete stream-transport append writes the framed
payload. -/
theorem appendRemote_framing_witness :
    (appendRemoteMT sampleState sampleEvent "42" true).writes =
      [toString samplePayload.length ++ " " ++ samplePayload] :=
  ((appendRemote_framing sampleState sampleEvent "42" true true rfl).1
    (by decide)).1

/-- Helper: on any name that is neither empty nor in the supported
table, `parseFacility` takes its final branch. -/
theorem parseFacility_unknown_eq (s : String) (hne : s ≠ "")
    (hmem : s ∉ supportedFacilityNames) :
    parseFacility s =
      (fallback_facility,
       [⟨DiagSeverity.error, "Unknown syslog facility: " ++ s⟩]) := by
  simp only [supportedFacilityNames, List.mem_cons, List.mem_singleton,
    not_or] at hmem
  obtain ⟨h1, h2, h3, h4, h5, h6, h7, h8, h9, h10, h11, h12, h13, h14, h15,
    h16, h17, h18, h19, h20, h21, h22, h23, -⟩ := hmem
  simp only [parseFacility, if_neg hne, if_neg h1, if_neg h2, if_neg h3,
    if_neg h4, if_neg h5, if_neg h6, if_neg h7, if_neg h8, if_neg h9,
    if_neg h10, if_neg h11, if_neg h12, if_neg h13, if_neg h14, if_neg h15,
    if_neg h16, if_neg h17, if_neg h18, if_neg h19, if_neg h20, if_neg h21,
    if_neg h22, if_neg h23]

/-- C3: every supported facility name resolves to its numeric code, the
empty name resolves to the default facility, every unrecognized
non-empty name resolves to that same default, and in particular "bogus"
and "" agree. -/
theorem parseFacility_spec :
    ((parseFacility "auth").1 = 32 ∧ (parseFacility "authpriv").1 = 80 ∧
     (parseFacility "console").1 = 112 ∧ (parseFacility "cron").1 = 72 ∧
     (parseFacility "daemon").1 = 24 ∧ (parseFacility "ftp").1 = 88 ∧
     (parseFacility "kern").1 = 0 ∧
     (parseFacility "local0").1 = 128 ∧ (parseFacility "local1").1 = 136 ∧
     (parseFacility "local2").1 = 144 ∧ (parseFacility "local3").1 = 152 ∧
     (parseFacility "local4").1 = 160 ∧ (parseFacility "local5").1 = 168 ∧
     (parseFacility "local6").1 = 176 ∧ (parseFacility "local7").1 = 184 ∧
     (parseFacility "lpr").1 = 48 ∧ (parseFacility "mail").1 = 16 ∧
     (parseFacility "news").1 = 56 ∧ (parseFacility "ntp").1 = 96 ∧
     (parseFacility "security").1 = 104 ∧ (parseFacility "syslog").1 = 40 ∧
     (parseFacility "user").1 = 8 ∧ (parseFacility "uucp").1 = 64) ∧
    (parseFacility "").1 = fallback_facility ∧
    (∀ s : String, s ≠ "" → s ∉ supportedFacilityNames →
      (parseFacility s).1 = fallback_facility) ∧
    (parseFacility "bogus").1 = (parseFacility "").1 := by
  refine ⟨by decide, by decide, ?_, by decide⟩
  intro s hne hmem
  rw [parseFacility_unknown_eq s hne hmem]

/-- C3 witness: the unrecognized name "bogus" resolves to the default
facility code. -/
theorem parseFacility_spec_witness :
    (parseFacility "bogus").1 = fallback_facility :=
  parseFacility_spec.2.2.1 "bogus" (by decide) (by decide)

/-- C4: the header field helper renders an empty field as a single dash,
cuts an over-limit field to exactly the limit, passes a within-limit
field through unchanged, and the header construction is independent of
the transport kind. -/
theorem substrOrNil_spec (str : String) (L : Nat) (_hL : 0 < L) :
    (str.length = 0 → substrOrNil str L = "-") ∧
    (str.length > L →
      substrOrNil str L = str.take L ∧ (substrOrNil str L).length = L) ∧
    (1 ≤ str.length → str.length ≤ L → substrOrNil str L = str) ∧
    (∀ st ev procId rst,
      buildSyslogMessage { st with remoteSyslogType := rst } ev procId =
        buildSyslogMessage st ev procId) := by
  have hlen : ∀ t : String, t.length = t.data.length := fun _ => rfl
  have hempty : ∀ t : String, t.length = 0 → t = "" := by
    intro t h0
    have h2 : t.data = [] := List.length_eq_zero.mp h0
    cases t
    simp at h2
    simp [h2]
  refine ⟨?_, ?_, ?_, ?_⟩
  · intro h0
    simp [substrOrNil, hempty str h0]
  · intro hgt
    have hne : str ≠ "" := by
      intro he
      rw [he] at hgt
      simp [hlen] at hgt
    refine ⟨by simp [substrOrNil, hne], ?_⟩
    rw [substrOrNil, if_neg hne, String.take_eq]
    show (str.data.take L).length = L
    have h2 : str.data.length > L := hgt
    simp [List.length_take]
    omega
  · intro h1 hle
    have hne : str ≠ "" := by
      intro he
      rw [he] at h1
      revert h1
      decide
    rw [substrOrNil, if_neg hne, String.take_eq]
    have h2 : str.data.length ≤ L := hle
    rw [List.take_of_length_le h2]
  · intro st ev procId rst
    rfl

/-- C4 witness: the dash, pass-through and truncation cases at concrete
inputs. -/
theorem substrOrNil_spec_witness :
    substrOrNil "" 48 = "-" ∧ substrOrNil "abc" 48 = "abc" ∧
      (substrOrNil "abcd" 3).length = 3 := by
  refine ⟨?_, ?_, ?_⟩
  · exact (substrOrNil_spec "" 48 (by decide)).1 (by decide)
  · exact (substrOrNil_spec "abc" 48 (by decide)).2.2.1 (by decide) (by decide)
  · exact ((substrOrNil_spec "abcd" 3 (by decide)).2.1 (by decide)).2

/-- C5: a failed socket write flips the connection state to
disconnected, emits exactly one warning diagnostic, triggers the
connector exactly once in a multi-threaded build (never in a
single-threaded one), and leaves only the single attempted write, with
nothing buffered for retry. -/
theorem appendRemote_writeFailure (st : AppenderState)
    (ev : InternalLoggingEvent) (procId : String) (openOk : Bool)
    (h : st.connected = true) :
    ((appendRemoteMT st ev procId false).state.connected = false ∧
     (appendRemoteMT st ev procId false).diags = [writeFailureDiag] ∧
     (appendRemoteMT st ev procId false).triggers = 1 ∧
     (appendRemoteMT st ev procId false).writes =
       [frameMessage st.remoteSyslogType (buildSyslogMessage st ev procId)]) ∧
    ((appendRemoteST st ev procId openOk false).state.connected = false ∧
     (appendRemoteST st ev procId openOk false).diags = [writeFailureDiag] ∧
     (appendRemoteST st ev procId openOk false).triggers = 0 ∧
     (appendRemoteST st ev procId openOk false).writes =
       [frameMessage st.remoteSyslogType (buildSyslogMessage st ev procId)]) := by
  simp [appendRemoteMT, appendRemoteST, sendMessage, h]

/-- C5 witness: the concrete failed write leaves the sample appender
disconnected after exactly one trigger. -/
theorem appendRemote_writeFailure_witness :
    (appendRemoteMT sampleState sampleEvent "42" false).state.connected = false ∧
    (appendRemoteMT sampleState sampleEvent "42" false).triggers = 1 :=
  ⟨(appendRemote_writeFailure sampleState sampleEvent "42" true rfl).1.1,
   (appendRemote_writeFailure sampleState sampleEvent "42" true rfl).1.2.2.1⟩

/-- C6: entered while disconnected, a multi-threaded append triggers the
connector once and returns with no write, no diagnostic and no state
change; a single-threaded append retries openSocket inline and, when the
reconnect fails, reports an error diagnostic naming host and port and
returns with no write. -/
theorem appendRemote_disconnected (st : AppenderState)
    (ev : InternalLoggingEvent) (procId : String) (writeOk : Bool)
    (h : st.connected = false) :
    appendRemoteMT st ev procId writeOk = ⟨[], [], 1, st⟩ ∧
    ((appendRemoteST st ev procId false writeOk).writes = [] ∧
     (appendRemoteST st ev procId false writeOk).state.connected = false ∧
     connectFailureDiag st.host st.port ∈
       (appendRemoteST st ev procId false writeOk).diags) := by
  simp [appendRemoteMT, appendRemoteST, openSocket, sendMessage, h]

/-- C6 witness: the concrete disconnected multi-threaded append drops
the event after one trigger. -/
theorem appendRemote_disconnected_witness :
    appendRemoteMT sampleStateDown sampleEvent "42" true =
      ⟨[], [], 1, sampleStateDown⟩ :=
  (appendRemote_disconnected sampleStateDown sampleEvent "42" true rfl).1

/-- C7 counterexample: at the unrecognized name "bogus" the resolver
emits no warning-severity diagnostic; the one diagnostic it emits goes
through the error channel of the sink. -/
theorem parseFacility_warn_counterexample :
    ¬ ∃ d ∈ (parseFacility "bogus").2, d.sev = DiagSeverity.warn := by
  decide

/-- C7 amended: for every unrecognized non-empty facility name the
resolver emits exactly one diagnostic, an error-severity line naming the
input, and falls back to the default facility code; resolution always
returns a code and never fails. -/
theorem parseFacility_unknown_spec (s : String) (h1 : s ≠ "")
    (h2 : s ∉ supportedFacilityNames) :
    (parseFacility s).2 =
      [⟨DiagSeverity.error, "Unknown syslog facility: " ++ s⟩] ∧
    (parseFacility s).1 = fallback_facility := by
  rw [parseFacility_unknown_eq s h1 h2]
  exact ⟨rfl, rfl⟩

/-- C7 witness: the "bogus" resolution emits exactly one error-severity
diagnostic. -/
theorem parseFacility_unknown_spec_witness :
    (parseFacility "bogus").2 =
      [⟨DiagSeverity.error, "Unknown syslog facility: bogus"⟩] :=
  (parseFacility_unknown_spec "bogus" (by decide) (by decide)).1

/-- C8: after construction of a remote appender the connected flag is
true unconditionally in an asynchronous (multi-threaded) build, and
equals the socket open result in a synchronous (single-threaded)
build. -/
theorem construction_state (isOpen : Bool) :
    remoteConstructedConnected true isOpen = true ∧
    remoteConstructedConnected false isOpen = isOpen := by
  cases isOpen <;> exact ⟨rfl, rfl⟩

/-- C9 counterexample: on the documented end-to-end input (stream
transport, default facility, INFO event "hello", ident "svc") the
payload behind the octet-count prefix does not start with the PRI field
of value 70. -/
theorem endToEnd_pri70_counterexample :
    ¬ ∃ t, samplePayload = "<70>" ++ t := by
  rintro ⟨t, ht⟩
  have hd : samplePayload.data = "<70>".data ++ t.data := by
    rw [ht, String.data_append]
  have h4 : samplePayload.data.take ("<70>".data.length) = "<70>".data := by
    rw [hd]
    exact List.take_left _ _
  exact absurd h4 (by decide)

/-- C9 amended: the end-to-end stream write is the octet-count prefix
followed by the payload, and the payload starts with the PRI field of
value 14 (facility user = 8, severity INFO = 6), contains "svc", and
ends with "hello". -/
theorem endToEnd_spec :
    (appendRemoteMT sampleState sampleEvent "42" true).writes =
      ["64 <14>1 2025-01-01T00:00:00.000000Z testhost svc 42 logger - hello"] ∧
    samplePayload =
      "<14>1 2025-01-01T00:00:00.000000Z testhost svc 42 logger - hello" ∧
    (∃ t, samplePayload = "<14>" ++ t) ∧
    (∃ a b, samplePayload = a ++ "svc" ++ b) ∧
    (∃ p, samplePayload = p ++ "hello") := by
  refine ⟨by decide, by decide,
    ⟨"1 2025-01-01T00:00:00.000000Z testhost svc 42 logger - hello",
      by decide⟩,
    ⟨"<14>1 2025-01-01T00:00:00.000000Z testhost ", " 42 logger - hello",
      by decide⟩,
    ⟨"<14>1 2025-01-01T00:00:00.000000Z testhost svc 42 logger - ",
      by decide⟩⟩

/-- C10: every resolved facility code is a multiple of 8 at most 184,
every mapped severity lies in 1..7, and the PRI value, the bitwise or
the message builder computes, equals facility plus severity and decodes
uniquely by mod 8. -/
theorem pri_encoding (s : String) (ll : Int) :
    (parseFacility s).1 % 8 = 0 ∧ (parseFacility s).1 ≤ 184 ∧
    1 ≤ getSysLogLevel ll ∧ getSysLogLevel ll ≤ 7 ∧
    (getSysLogLevel ll ||| (parseFacility s).1) =
      (parseFacility s).1 + getSysLogLevel ll ∧
    (getSysLogLevel ll ||| (parseFacility s).1) % 8 = getSysLogLevel ll ∧
    (getSysLogLevel ll ||| (parseFacility s).1) -
      (getSysLogLevel ll ||| (parseFacility s).1) % 8 = (parseFacility s).1 := by
  have hfac : (parseFacility s).1 ∈
      ([0, 8, 16, 24, 32, 40, 48, 56, 64, 72, 80, 88, 96, 104, 112, 128,
        136, 144, 152, 160, 168, 176, 184] : List Nat) := by
    by_cases he : s = ""
    · rw [he]
      decide
    · by_cases hs : s ∈ supportedFacilityNames
      · fin_cases hs <;> decide
      · rw [parseFacility_unknown_eq s he hs]
        show fallback_facility ∈ _
        decide
  have hsev : getSysLogLevel ll ∈ ([7, 6, 4, 3, 2, 1] : List Nat) := by
    unfold getSysLogLevel
    split_ifs <;> decide
  obtain ⟨f, hf⟩ : ∃ f, (parseFacility s).1 = f := ⟨_, rfl⟩
  obtain ⟨v, hv⟩ : ∃ v, getSysLogLevel ll = v := ⟨_, rfl⟩
  rw [hf] at hfac ⊢
  rw [hv] at hsev ⊢
  clear hf hv
  fin_cases hfac <;> fin_cases hsev <;> decide

end Log4cplusSyslog
